import Mathlib

/-!
Verification development for the GreedyMaxScheduler repository.

The Python sources are shallowly embedded: floating-point quantities are
modelled by rationals (ℚ), numpy arrays by lists, Python exceptions by an
`Except` error value, and the mutable per-object state by explicit record
updates.  Each definition is a direct transcription of the corresponding
Python function; comments record the source file and any Python-level
semantic facts (builtin behaviour, set iteration order, numpy shape rules)
the transcription relies on.
-/

set_option maxRecDepth 4000

/-- Python exceptions raised by the embedded code. -/
inductive PyErr where
  | valueError : String → PyErr
  | runtimeError : String → PyErr
  | indexError : PyErr
deriving DecidableEq

/-! ## Ranker (src/components/ranker/__init__.py) -/

/-- Model of `Band` from the minimodel (an `IntEnum` with values 1..4). -/
inductive Band where
  | band1 | band2 | band3 | band4
deriving DecidableEq, Inhabited

/-- Model of `RankerBandParameters` (ranker/__init__.py lines 39-50). -/
structure RankerBandParameters where
  m1 : ℚ
  b1 : ℚ
  m2 : ℚ
  b2 : ℚ
  xb : ℚ
  xb0 : ℚ
  xc0 : ℚ
deriving DecidableEq

/-- The numeric fields of `RankerParameters` (ranker/__init__.py lines 19-36).
The `dec_diff` coefficient arrays and the `score_combiner` field are modelled
separately where needed. -/
structure RankerParameters where
  thesis_factor : ℚ := 11/10
  power : ℕ := 2
  met_power : ℚ := 1
  vis_power : ℚ := 1
  wha_power : ℚ := 1
  comp_exp : ℕ := 1
deriving DecidableEq

/-- One step of the loop body in `_default_band_params` (lines 72-81):
given the running `b1` intercept, produce the parameters for `band` and the
next running `b1`. -/
def defaultBandParamsStep (m2 : ℚ) (b1 : ℚ) : RankerBandParameters × ℚ :=
  let xb : ℚ := 4/5
  let b2 : ℚ := b1 + 5 - m2
  let m1 : ℚ := (m2 * xb + b2) / (xb ^ 2)
  (⟨m1, b1, m2, b2, xb, 0, 0⟩, b1 + m2 * 1 + b2)

/-- Model of `m2` band coefficients from `_default_band_params` (line 67). -/
def defaultM2 : Band → ℚ
  | .band4 => 0
  | .band3 => 1
  | .band2 => 6
  | .band1 => 20

/-- Model of `_default_band_params` (ranker/__init__.py lines 63-83).
The Python loop runs `for band in {Band.BAND3, Band.BAND2, Band.BAND1}`:
iteration over a CPython set of `IntEnum` members with values 3, 2, 1 visits
the members in ascending hash (= integer value) order, i.e. BAND1, BAND2,
BAND3, and the running `b1` bootstrap is threaded in that order. -/
def defaultBandParams : Band → RankerBandParameters :=
  let start : ℚ := 6/5
  let p1 := defaultBandParamsStep (defaultM2 .band1) start
  let p2 := defaultBandParamsStep (defaultM2 .band2) p1.2
  let p3 := defaultBandParamsStep (defaultM2 .band3) p2.2
  fun b => match b with
  | .band4 => ⟨0, 1/10, 0, 0, 4/5, 0, 0⟩
  | .band3 => p3.1
  | .band2 => p2.1
  | .band1 => p1.1

/-- The per-index body of the loop in `Ranker._metric_slope`
(ranker/__init__.py lines 148-179), returning `(metric, metric_slope)` for
one entry.  Two Python-level facts are embedded:
* lines 159-163 test `pow == 1` and `pow == 2` where `pow` is the Python
  *builtin function* (no local or module variable of that name exists), so
  both tests are false and `b2` keeps its initialisation `b2 = 0`;
* `completion[idx] ** (comp_exp - 1.0)` is modelled as `c ^ (comp_exp - 1)`
  with natural subtraction, which agrees with Python for the documented
  values `comp_exp ∈ {1, 2}`. -/
def metricSlopeEntry (params : RankerParameters) (bandParams : Band → RankerBandParameters)
    (c : ℚ) (curr_band : Band) (b3minEntry : ℚ) : ℚ × ℚ :=
  let bp := bandParams curr_band
  let xb : ℚ := if curr_band = .band3 then b3minEntry else bp.xb
  let b2 : ℚ := 0
  let eps : ℚ := 1 / 10000000
  if c ≤ eps then (0, 0)
  else if c < xb then
    (bp.m1 * c ^ params.comp_exp + bp.b1,
     (params.comp_exp : ℚ) * bp.m1 * c ^ (params.comp_exp - 1))
  else if c < 1 then (bp.m2 * c + b2, bp.m2)
  else (bp.m2 * 1 + b2 + bp.xc0, bp.m2)

/-- Model of `Ranker._metric_slope` (ranker/__init__.py lines 122-184).
Raises `ValueError` when the `band` and `completion` arrays have different
lengths; raises `IndexError` when a Band-3 entry reads past the end of
`b3min`; otherwise returns the metric and slope arrays, with
`thesis_factor` added to every metric entry when `thesis` is set. -/
def metricSlope (params : RankerParameters) (bandParams : Band → RankerBandParameters)
    (completion : List ℚ) (band : List Band) (b3min : List ℚ) (thesis : Bool) :
    Except PyErr (List ℚ × List ℚ) := do
  if band.length ≠ completion.length then
    throw (.valueError ("Incompatible lengths between band and completion arrays"))
  let entries ← (List.range band.length).mapM (fun idx => do
    let curr_band := band.get! idx
    let c := completion.get! idx
    let b3e ← if curr_band = .band3 then
        match b3min.get? idx with
        | some v => pure v
        | none => throw PyErr.indexError
      else pure 0
    pure (metricSlopeEntry params bandParams c curr_band b3e))
  let metric := entries.map Prod.fst
  let metric_slope := entries.map Prod.snd
  let metric := if thesis then metric.map (· + params.thesis_factor) else metric
  pure (metric, metric_slope)

/-- Modelled from the spec: the metric described by claim C1 and spec §4.3,
in which `b2` is chosen so that the parabolic and linear segments meet at
`xb`, i.e. `m1·xb^comp_exp + b1 = m2·xb + b2`. -/
def metricSlopeClaimEntry (params : RankerParameters) (bandParams : Band → RankerBandParameters)
    (c : ℚ) (curr_band : Band) (b3minEntry : ℚ) : ℚ × ℚ :=
  let bp := bandParams curr_band
  let xb : ℚ := if curr_band = .band3 then b3minEntry else bp.xb
  let b2 : ℚ := bp.m1 * xb ^ params.comp_exp + bp.b1 - bp.m2 * xb
  let eps : ℚ := 1 / 10000000
  if c ≤ eps then (0, 0)
  else if c < xb then
    (bp.m1 * c ^ params.comp_exp + bp.b1,
     (params.comp_exp : ℚ) * bp.m1 * c ^ (params.comp_exp - 1))
  else if c < 1 then (bp.m2 * c + b2, bp.m2)
  else (bp.m2 * 1 + b2 + bp.xc0, bp.m2)

/-- Modelled from the spec: `_metric_slope` as claim C1 states it, using the
continuous choice of `b2` (`metricSlopeClaimEntry`) for every entry. -/
def metricSlopeClaim (params : RankerParameters) (bandParams : Band → RankerBandParameters)
    (completion : List ℚ) (band : List Band) (b3min : List ℚ) (thesis : Bool) :
    Except PyErr (List ℚ × List ℚ) := do
  if band.length ≠ completion.length then
    throw (.valueError ("Incompatible lengths between band and completion arrays"))
  let entries ← (List.range band.length).mapM (fun idx => do
    let curr_band := band.get! idx
    let c := completion.get! idx
    let b3e ← if curr_band = .band3 then
        match b3min.get? idx with
        | some v => pure v
        | none => throw PyErr.indexError
      else pure 0
    pure (metricSlopeClaimEntry params bandParams c curr_band b3e))
  let metric := entries.map Prod.fst
  let metric_slope := entries.map Prod.snd
  let metric := if thesis then metric.map (· + params.thesis_factor) else metric
  pure (metric, metric_slope)

/-- Python `zip(*lists)`: transpose truncated to the shortest list
(`zip` with no arguments yields the empty sequence). -/
def pyZipStar [Inhabited α] (l : List (List α)) : List (List α) :=
  match l with
  | [] => []
  | x :: xs =>
    let n := xs.foldl (fun m ys => min m ys.length) x.length
    (List.range n).map (fun i => (x :: xs).map (fun ys => ys.getD i default))

/-- A 2-D numpy float array of shape `(rows.length, width)`. -/
structure NpMatrix where
  width : ℕ
  rows : List (List ℚ)
deriving DecidableEq

/-- Model of `np.empty((0, w))`. -/
def npEmpty (w : ℕ) : NpMatrix := ⟨w, []⟩

/-- Model of `np.append(m, np.array([row]), axis=0)`: numpy raises `ValueError` when
the row length differs from the matrix width (all dimensions except the
concatenation axis must match exactly). -/
def npAppendRow (m : NpMatrix) (row : List ℚ) : Except PyErr NpMatrix :=
  if row.length = m.width then
    pure ⟨m.width, m.rows ++ [row]⟩
  else
    throw (.valueError ("all the input array dimensions except for the concatenation axis must match exactly"))

/-- Model of `_default_score_combiner` (ranker/__init__.py lines 12-16):
`np.array([np.max(x)]) if 0 not in x else np.array([0])`.  `np.max` of an
empty array raises `ValueError`. -/
def defaultScoreCombiner (x : List ℚ) : Except PyErr (List ℚ) :=
  if x.contains 0 then pure [0]
  else match x with
    | [] => throw (.valueError ("zero-size array to reduction operation maximum"))
    | y :: ys => pure [ys.foldl max y]

/-- Model of `np.apply_along_axis(f, 0, m)[0]` for a combiner `f` that returns
singleton arrays: apply the combiner to each column.  numpy raises
`ValueError` when the number of columns (an iteration dimension) is 0. -/
def applyAlongAxis0 (m : NpMatrix) : Except PyErr (List ℚ) :=
  if m.width = 0 then
    throw (.valueError ("Cannot apply_along_axis when any iteration dimensions are 0"))
  else
    (List.range m.width).mapM (fun t => do
      let col := m.rows.map (fun r => r.getD t 0)
      let v ← defaultScoreCombiner col
      pure (v.headD 0))

/-- Model of `Ranker.score_and_group` (ranker/__init__.py lines 273-301) with the
default score combiner.  `obsScores` is indexed first by child observation
and then by night (`self.get_observation_scores(obs.id)` per child);
`nightIndices` is `self.night_indices`.  The transcription mirrors the
Python statement by statement:
* `obs_scores = list(zip(*[...]))`;
* `group_scores` is initialised per night index to
  `np.empty((0, len(obs_scores[night_idx])))` — note that
  `len(obs_scores[night_idx])` is the number of child observations;
* the loop `for os in obs_scores: for night_idx in self.night_indices:`
  appends `np.array([os[night_idx]])` (the scores of child *number*
  `night_idx` on the night `os` ranges over) to `group_scores[night_idx]`,
  where both list indexings raise `IndexError` when out of range;
* finally each matrix is reduced column-wise with the combiner. -/
def scoreAndGroup (obsScores : List (List (List ℚ))) (nightIndices : List ℕ) :
    Except PyErr (List (List ℚ)) := do
  let obs_scores := pyZipStar obsScores
  let init ← nightIndices.mapM (fun night_idx =>
    match obs_scores.get? night_idx with
    | some t => pure (npEmpty t.length)
    | none => throw PyErr.indexError)
  let final ← obs_scores.foldlM (fun (state : List NpMatrix) os =>
    nightIndices.foldlM (fun (state : List NpMatrix) night_idx => do
      let row ← match os.get? night_idx with
        | some r => pure r
        | none => throw PyErr.indexError
      let cur ← match state.get? night_idx with
        | some m => pure m
        | none => throw PyErr.indexError
      let m' ← npAppendRow cur row
      pure (state.set night_idx m')) state) init
  nightIndices.mapM (fun night_idx => do
    let m ← match final.get? night_idx with
      | some m => pure m
      | none => throw PyErr.indexError
    applyAlongAxis0 m)

/-! ## Collector target-info visibility accumulation
(src/scheduler/core/components/collector/collector.py lines 265-454) -/

/-- The visibility fields of `TargetInfo` relevant to the remaining-
visibility invariant; the geometric fields are independent of it. -/
structure TIvis where
  visibility_time : ℚ
  rem_visibility_time : ℚ
deriving DecidableEq

/-- The night loop of `Collector._calculate_target_info` (collector.py
lines 297-451), restricted to the visibility-time bookkeeping.  The nights
are processed in reverse order.  For each night the Redis cache is
consulted (line 309): on a hit, the cached `TargetInfo` is stored and the
`rem_visibility_time` accumulator is *not* advanced (the `+=` on line 425
is inside the cache-miss branch); on a miss, the freshly computed
`visibility_time` (modelled by the oracle `visTime`, summarising the
geometry computation of lines 315-424) is added to the accumulator and
stored. -/
def calcVisLoop (cache : ℕ → Option TIvis) (visTime : ℕ → ℚ) :
    ℚ → List ℕ → List (ℕ × TIvis)
  | _, [] => []
  | acc, n :: rest =>
    match cache n with
    | some ti => (n, ti) :: calcVisLoop cache visTime acc rest
    | none =>
      let vt := visTime n
      let acc' := acc + vt
      (n, ⟨vt, acc'⟩) :: calcVisLoop cache visTime acc' rest

/-- Model of `Collector._calculate_target_info`, visibility-time part: process the
time-grid nights backwards (collector.py line 302) starting from a zero
accumulator (line 297). -/
def calculateTargetInfoVis (numNights : ℕ) (cache : ℕ → Option TIvis)
    (visTime : ℕ → ℚ) : List (ℕ × TIvis) :=
  calcVisLoop cache visTime 0 ((List.range numNights).reverse)

/-- Failing cache for claim C3: a previous scheduling request has populated
the Redis cache with night 1's TargetInfo.  The cached value is exactly
what a fresh computation of night 1 would produce (`visExC3 1 = 5`, and a
fresh run would store `rem_visibility_time = 5` for the last night), so the
cache is consistent. -/
def cacheExC3 : ℕ → Option TIvis := fun n => if n = 1 then some ⟨5, 5⟩ else none

/-- Visibility-time oracle for claim C3: night 0 is visible for 2 hours and
night 1 for 5 hours. -/
def visExC3 : ℕ → ℚ := fun n => if n = 0 then 2 else 5

/-! ## Collector timing windows (collector.py lines 238-263) -/

/-- Model of `TimingWindow` from the minimodel: `start` (a datetime, modelled as a
rational timestamp), `duration`, `repeat` count and optional `period`
(`None` meaning no period). -/
structure TimingWindow where
  tw_start : ℚ
  duration : ℚ
  tw_repeat : ℤ
  period : Option ℚ
deriving DecidableEq

/-- The expansion of one timing window in `_process_timing_windows`
(collector.py lines 256-261): `repeat = max(1, tw.repeat)` copies spaced by
`period` (`0` when the period is `None`), each lasting `duration`. -/
def expandTimingWindow (tw : TimingWindow) : List (ℚ × ℚ) :=
  let period := tw.period.getD 0
  let rep := (max 1 tw.tw_repeat).toNat
  (List.range rep).map (fun i => (tw.tw_start + i * period, tw.tw_start + i * period + tw.duration))

/-- Model of `Collector._process_timing_windows` (collector.py lines 238-263).
`timingWindows = none` models an observation without constraints; the
windows list of the constraints otherwise.  When there are no windows, a
single window spanning the program is produced; otherwise the loop extends
the result with each window's expansion. -/
def processTimingWindows (progStart progEnd : ℚ)
    (timingWindows : Option (List TimingWindow)) : List (ℚ × ℚ) :=
  match timingWindows with
  | none => [(progStart, progEnd)]
  | some tws =>
    if tws.isEmpty then [(progStart, progEnd)]
    else tws.foldl (fun windows tw => windows ++ expandTimingWindow tw) []

/-- Modelled from the spec: the expansion claim C6 states, in which a
declared window with repeat count `r` expands into exactly `r` copies. -/
def claimTimingWindows (progStart progEnd : ℚ)
    (timingWindows : Option (List TimingWindow)) : List (ℚ × ℚ) :=
  match timingWindows with
  | none => [(progStart, progEnd)]
  | some tws =>
    if tws.isEmpty then [(progStart, progEnd)]
    else tws.flatMap (fun tw =>
      let period := tw.period.getD 0
      (List.range tw.tw_repeat.toNat).map
        (fun i => (tw.tw_start + i * period, tw.tw_start + i * period + tw.duration)))

/-- The amended claim C6: as `claimTimingWindows` but with `max 1 r` copies
per declared window. -/
def amendedTimingWindows (progStart progEnd : ℚ)
    (timingWindows : Option (List TimingWindow)) : List (ℚ × ℚ) :=
  match timingWindows with
  | none => [(progStart, progEnd)]
  | some tws =>
    if tws.isEmpty then [(progStart, progEnd)]
    else tws.flatMap (fun tw =>
      let period := tw.period.getD 0
      (List.range (max 1 tw.tw_repeat).toNat).map
        (fun i => (tw.tw_start + i * period, tw.tw_start + i * period + tw.duration)))

/-! ## Collector construction checks (collector.py lines 125-138) -/

/-- The `.value` of an astropy `Time`: either a scalar or an array. -/
inductive TimeValue where
  | scalar : ℚ → TimeValue
  | array : List ℚ → TimeValue
deriving DecidableEq

/-- Model of `np.isscalar` on a `TimeValue`. -/
def npIsScalar : TimeValue → Bool
  | .scalar _ => true
  | .array _ => false

/-- The scalar payload (only consulted after the scalar checks pass). -/
def timeScalarValue : TimeValue → ℚ
  | .scalar q => q
  | .array _ => 0

/-- The validation prologue of `Collector.__post_init__` (collector.py
lines 125-138): reject a non-scalar start time, a non-scalar end time, and
a start time later than the end time, in that order. -/
def collectorCheckTimes (start_vis_time end_vis_time : TimeValue) : Except PyErr Unit :=
  if npIsScalar start_vis_time = false then
    throw (.valueError ("Illegal start time (must be scalar)."))
  else if npIsScalar end_vis_time = false then
    throw (.valueError ("Illegal end time (must be scalar)."))
  else if timeScalarValue end_vis_time < timeScalarValue start_vis_time then
    throw (.valueError ("Start time cannot occur later than end time."))
  else
    pure ()

/-! ## Validation-mode observation reset (builder.py lines 79-117) -/

/-- Model of `QAState` from the minimodel. -/
inductive QAState where
  | stateNone | pass | usable | stateFail
deriving DecidableEq

/-- Model of `ObservationStatus` from the minimodel. -/
inductive ObservationStatus where
  | statusNew | ready | ongoing | observed | inactive
deriving DecidableEq

/-- Model of `ObservationClass` from the minimodel. -/
inductive ObservationClass where
  | science | progcal | partnercal | acq | acqcal | daycal
deriving DecidableEq

/-- Model of `Atom` from the minimodel: charged-time accumulators and QA flags,
plus the static `exec_time`, `prog_time` and `part_time` durations
(durations as rational hours). -/
structure Atom where
  exec_time : ℚ
  prog_time : ℚ
  part_time : ℚ
  program_used : ℚ
  partner_used : ℚ
  not_charged : ℚ
  observed : Bool
  qa_state : QAState
deriving DecidableEq

/-- The fields of `Observation` used by the embedded operations: the atom
`sequence`, the `status`, the acquisition overhead and the observation
class. -/
structure Observation where
  sequence : List Atom
  status : ObservationStatus
  acq_overhead : ℚ
  obs_class : ObservationClass
deriving DecidableEq

/-- Model of `ValidationBuilder._obs_statuses_to_ready` (builder.py lines 68-70). -/
def obsStatusesToReady : List ObservationStatus := [.ongoing, .observed]

/-- The atom reset in `_clear_observation_info` (builder.py lines 99-103). -/
def clearAtom (a : Atom) : Atom :=
  { a with program_used := 0, partner_used := 0, observed := false, qa_state := .stateNone }

/-- The per-observation body of `_clear_observation_info`
(builder.py lines 98-106), with the default statuses-to-ready set. -/
def clearObservation (o : Observation) : Observation :=
  { o with sequence := o.sequence.map clearAtom,
           status := if o.status ∈ obsStatusesToReady then .ready else o.status }

/-- Model of `ValidationBuilder._clear_observation_info` (builder.py lines 79-106)
with the default arguments (no observation filter), as invoked by
`reset_collector_observations` (lines 108-117). -/
def clearObservationInfo (obs : List Observation) : List Observation :=
  obs.map clearObservation

/-! ## NightlyTimeline (src/scheduler/core/eventsqueue/nightchanges.py) -/

/-- Model of `Site` from the minimodel: the two supported sites. -/
inductive Site where
  | GN | GS
deriving DecidableEq, Inhabited

/-- Model of `Visit` from `scheduler.core.plans`: the fields carried by a plan
visit. -/
structure Visit where
  obs_id : ℕ
  start_time_slot : ℕ
  time_slots : ℕ
  atom_start_idx : ℕ
  atom_end_idx : ℕ
  score : ℚ
deriving DecidableEq, Inhabited

/-- Model of `Plan` from `scheduler.core.plans`: `start`/`end` wall-clock times are
opaque rational timestamps here; `time_slots_left` models
`_time_slots_left` (returned by `time_left()`). -/
structure Plan where
  planStart : ℚ
  planEnd : ℚ
  time_slot_length : ℚ
  site : Site
  time_slots_left : ℕ
  visits : List Visit
deriving DecidableEq, Inhabited

/-- Model of `TimelineEntry` (nightchanges.py lines 22-27); the `event` payload is
opaque. -/
structure TimelineEntry where
  start_time_slot : ℕ
  event : ℕ
  plan_generated : Option Plan
deriving DecidableEq

/-- Model of `NightlyTimeline.timeline`: night index → site → entries, as an
association list. -/
structure NightlyTimeline where
  timeline : List (ℕ × List (Site × List TimelineEntry))
deriving DecidableEq

/-- Modelled from the spec: `Plan.get_slice(stop=t)` (`scheduler.core.plans`
is not among the sources).  Spec §4.6: "take the plan slice `[0, t_next)`" —
the visits that start in slots `[0, stop)`. -/
def getSlice (p : Plan) (stop : ℕ) : Plan :=
  { p with visits := p.visits.filter (fun v => v.start_time_slot < stop) }

/-- The mid-execution cut of `get_final_plan` (nightchanges.py lines
78-83): if the last visit of the partial plan straddles `t`
(`last_start_time_slot <= t < last_end_time_slot`), its `time_slots` is
rewritten to `t - last_start_time_slot`. -/
def truncateStraddler (p : Plan) (t : ℕ) : Plan :=
  match p.visits.getLast? with
  | none => p
  | some last =>
    if last.start_time_slot ≤ t ∧ t < last.start_time_slot + last.time_slots then
      { p with visits := p.visits.dropLast ++ [{ last with time_slots := t - last.start_time_slot }] }
    else p

/-- The plan stored in a relevant (plan-carrying) timeline entry. -/
def entryPlan (e : TimelineEntry) : Plan :=
  e.plan_generated.getD default

/-- One iteration of the `for entry in relevant_entries` loop of
`get_final_plan` (nightchanges.py lines 65-89), on the state
`(t, all_generated)`: slice the entry's plan at `t` when `t > 0` (taking
the whole plan otherwise), cut a straddling last visit, append the partial
plan's nonzero-length visits in reverse, and raise `t` to the entry's
start time slot when it is larger. -/
def finalPlanStep (st : ℕ × List Visit) (entry : TimelineEntry) : ℕ × List Visit :=
  let t := st.1
  let pg := entryPlan entry
  let sliced := if t > 0 then truncateStraddler (getSlice pg t) t else pg
  let acc := st.2 ++ (sliced.visits.reverse.filter (fun v => v.time_slots ≠ 0))
  let t' := if t < entry.start_time_slot then entry.start_time_slot else t
  (t', acc)

/-- Model of `NightlyTimeline.get_final_plan` (nightchanges.py lines 50-97),
returning the result together with the timeline left behind by the call:
the three early paths (missing night, missing site, no generated plans)
perform no writes at all, and the spec-modelled `get_slice` is a pure
read, so the timeline is returned unchanged. -/
def getFinalPlanFull (tl : NightlyTimeline) (night_idx : ℕ) (site : Site) :
    Except PyErr (Option Plan) × NightlyTimeline :=
  match tl.timeline.lookup night_idx with
  | none => (.error (.runtimeError ("Cannot get final plan: night_idx for site not in timeline.")), tl)
  | some by_site =>
    match by_site.lookup site with
    | none => (.error (.runtimeError ("Cannot get final plan: site not in timeline.")), tl)
    | some entries =>
      match entries.reverse.filter (fun e => e.plan_generated.isSome) with
      | [] => (.ok none, tl)
      | e0 :: rest =>
        let res := (e0 :: rest).foldl finalPlanStep (0, [])
        let lastRelevant := (e0 :: rest).getLast (by simp)
        let p : Plan :=
          { planStart := (entryPlan e0).planStart,
            planEnd := (entryPlan lastRelevant).planEnd,
            time_slot_length := (entryPlan e0).time_slot_length,
            site := site,
            time_slots_left := (entryPlan lastRelevant).time_slots_left,
            visits := res.2.reverse }
        (.ok (some p), tl)

/-- Model of `NightlyTimeline.get_final_plan`: result component only. -/
def getFinalPlan (tl : NightlyTimeline) (night_idx : ℕ) (site : Site) :
    Except PyErr (Option Plan) :=
  (getFinalPlanFull tl night_idx site).1

/-- The visits of the final plan, for concrete evaluation. -/
def finalPlanVisits (tl : NightlyTimeline) (night_idx : ℕ) (site : Site) :
    Except PyErr (Option (List Visit)) :=
  (getFinalPlan tl night_idx site).map (Option.map Plan.visits)

/-- Modelled from the spec: the truncation claim C4 describes — a visit cut
mid-execution at `t_next` keeps `t_next − start_time_slot` slots. -/
def claimTruncVisit (t_next : Option ℕ) (v : Visit) : Visit :=
  match t_next with
  | none => v
  | some t =>
    if v.start_time_slot ≤ t ∧ t < v.start_time_slot + v.time_slots then
      { v with time_slots := t - v.start_time_slot }
    else v

/-- Modelled from the spec: the contribution of one plan-carrying entry per
claim C4 — the visits in the slot range `[0, t_next)` (the whole plan when
there is no later contributing entry), truncated at `t_next` and dropped
when nothing of them survives. -/
def claimContribution (t_next : Option ℕ) (p : Plan) : List Visit :=
  let vs := match t_next with
    | none => p.visits
    | some t => p.visits.filter (fun v => v.start_time_slot < t)
  (vs.map (claimTruncVisit t_next)).filter (fun v => v.time_slots ≠ 0)

/-- Modelled from the spec: the reverse-merge claim C4 describes, walking
the plan-carrying entries in forward chronological order; each contributes
its slice up to the timeslot of the next-later contributing entry. -/
def claimWalk : List TimelineEntry → List Visit
  | [] => []
  | e :: rest =>
    claimContribution (rest.head?.map TimelineEntry.start_time_slot) (entryPlan e) ++ claimWalk rest

/-- Modelled from the spec: the final-plan visit list per claim C4. -/
def claimFinalAssembly (entries : List TimelineEntry) : List Visit :=
  claimWalk (entries.filter (fun e => e.plan_generated.isSome))

/-! ## Time accounting (collector.py lines 44-60 and 596-743) -/

/-- The only field of the minimodel `Group` consulted by the accounting
logic (`Group` itself names the Mathlib algebraic class, hence the prefixed
name). -/
structure ObsGroup where
  is_scheduling_group : Bool
deriving DecidableEq

/-- Model of `GroupVisits` (collector.py lines 44-60). -/
structure GroupVisits where
  group : ObsGroup
  visits : List Visit
deriving DecidableEq

/-- Model of `GroupVisits.start_time_slot` (collector.py lines 51-55): the first
visit's start slot.  The Python method raises on an empty visit list; the
theorems below carry a nonemptiness hypothesis instead. -/
def GroupVisits.startTimeSlot (gv : GroupVisits) : ℕ :=
  (gv.visits.headD default).start_time_slot

/-- Model of `GroupVisits.end_time_slot` (collector.py lines 57-60):
`visits[-1].start_time_slot + visits[-1].time_slots - 1`, as a Python
integer. -/
def GroupVisits.endTimeSlot (gv : GroupVisits) : ℤ :=
  let last := gv.visits.getLastD default
  (last.start_time_slot : ℤ) + last.time_slots - 1

/-- Model of `lucupy.timeutils.time2slots`: the number of time slots needed to cover
the duration `t`, i.e. the ceiling of `t / tsl`. -/
def time2slots (tsl : ℚ) (t : ℚ) : ℤ := ⌈t / tsl⌉

/-- Model of `Observation.cumulative_exec_times` (lucupy): the running sums of the
atom execution times. -/
def cumSum : ℚ → List ℚ → List ℚ
  | _, [] => []
  | acc, x :: xs => (acc + x) :: cumSum (acc + x) xs

/-- Cumulative atom execution times for an observation. -/
def cumulativeExecTimes (o : Observation) : List ℚ :=
  cumSum 0 (o.sequence.map Atom.exec_time)

/-- Model of `n_slots_acq` (collector.py line 677). -/
def nSlotsAcq (tsl : ℚ) (o : Observation) : ℤ := time2slots tsl o.acq_overhead

/-- Model of `slot_length_visit` for atom `i` (collector.py line 696). -/
def slotLengthVisit (tsl : ℚ) (o : Observation) (i : ℕ) : ℤ :=
  nSlotsAcq tsl o + time2slots tsl ((cumulativeExecTimes o).getD i 0)

/-- Model of `slot_atom_end` for atom `i` of a visit (collector.py line 697). -/
def slotAtomEnd (tsl : ℚ) (v : Visit) (o : Observation) (i : ℕ) : ℤ :=
  (v.start_time_slot : ℤ) + slotLengthVisit tsl o i - 1

/-- Model of `slot_atom_length` (collector.py lines 699-703).  In the `else` branch
the loop guarantees `i > atom_start_idx ≥ 0`, so the natural subtraction
`i - 1` agrees with Python. -/
def slotAtomLength (tsl : ℚ) (v : Visit) (o : Observation) (i : ℕ) : ℤ :=
  if i = v.atom_start_idx then slotLengthVisit tsl o i
  else slotLengthVisit tsl o i - nSlotsAcq tsl o
       - time2slots tsl ((cumulativeExecTimes o).getD (i - 1) 0)

/-- Model of `slot_atom_start` (collector.py lines 704-707). -/
def slotAtomStart (tsl : ℚ) (v : Visit) (o : Observation) (i : ℕ) : ℤ :=
  if slotAtomLength tsl v o i > 0 then
    slotAtomEnd tsl v o i - slotAtomLength tsl v o i + 1
  else slotAtomEnd tsl v o i - slotAtomLength tsl v o i

/-- The per-atom body of the accounting loop (collector.py lines 694-731):
charge `program_used`/`partner_used` (with the acquisition overhead added
to the first atom — note that the source adds it to `program_used` for all
of PARTNERCAL, SCIENCE and PROGCAL) when the group is charged, or
accumulate into `not_charged` when the bound cuts a scheduling group. -/
def atomUpdate (charge_group not_charged : Bool) (endCharge : ℤ) (tsl : ℚ)
    (v : Visit) (o : Observation) (i : ℕ) (a : Atom) : Atom :=
  if slotAtomEnd tsl v o i < endCharge then
    if charge_group then
      let a1 := { a with program_used := a.prog_time, partner_used := a.part_time }
      let a2 := if i = v.atom_start_idx then
          match o.obs_class with
          | .partnercal => { a1 with program_used := a1.program_used + o.acq_overhead }
          | .science => { a1 with program_used := a1.program_used + o.acq_overhead }
          | .progcal => { a1 with program_used := a1.program_used + o.acq_overhead }
          | _ => a1
        else a1
      { a2 with observed := true, qa_state := .pass }
    else if not_charged then
      { a with not_charged := a.not_charged + ((endCharge - slotAtomStart tsl v o i + 1 : ℤ) : ℚ) * tsl }
    else a
  else a

/-- Apply `f i` to the element at each position `i` (the in-place atom
updates of the loop, which touch each index at most once). -/
def updateIdx (f : ℕ → Atom → Atom) : ℕ → List Atom → List Atom
  | _, [] => []
  | i, a :: as => f i a :: updateIdx f (i + 1) as

/-- The per-visit body of the accounting loop (collector.py lines 668-731):
update the observation status (lines 684-691; the removal from the
partner-observation list, which only feeds the final INACTIVE pass on
*other* observations in lines 738-743, is outside this fragment) and run
the atom loop over `[atom_start_idx, atom_end_idx]`. -/
def processVisit (charge_group not_charged : Bool) (endCharge : ℤ) (tsl : ℚ)
    (v : Visit) (o : Observation) : Observation :=
  let o1 :=
    if charge_group ∧ (v.atom_end_idx : ℤ) = (o.sequence.length : ℤ) - 1 then
      { o with status := .observed }
    else if not_charged then { o with status := .ongoing }
    else o
  let f := fun i a =>
    if v.atom_start_idx ≤ i ∧ i ≤ v.atom_end_idx then
      atomUpdate charge_group not_charged endCharge tsl v o i a
    else a
  { o1 with sequence := updateIdx f 0 o1.sequence }

/-- Model of `charge_group` (collector.py lines 637-642). -/
def chargeGroupFlag (bound : Option ℤ) (gv : GroupVisits) : Bool :=
  match bound with
  | none => true
  | some b =>
    if gv.group.is_scheduling_group then decide (gv.endTimeSlot < b)
    else decide ((gv.startTimeSlot : ℤ) < b)

/-- Model of `end_timeslot_charge` (collector.py lines 644-648). -/
def endTimeslotCharge (bound : Option ℤ) (gv : GroupVisits) : ℤ :=
  match bound with
  | some b => b
  | none => gv.endTimeSlot + 1

/-- Model of `not_charged` (collector.py lines 650-654). -/
def notChargedFlag (bound : Option ℤ) (gv : GroupVisits) : Bool :=
  gv.group.is_scheduling_group
    && decide ((gv.startTimeSlot : ℤ) ≤ endTimeslotCharge bound gv)
    && decide (endTimeslotCharge bound gv ≤ gv.endTimeSlot)

/-- One visit of the accounting loop over the observation store
(`Collector.get_observation` is a lookup by observation id; the in-place
mutation of the looked-up observation is modelled by updating the
store). -/
def accountStep (charge_group not_charged : Bool) (endCharge : ℤ) (tsl : ℚ)
    (m : ℕ → Observation) (v : Visit) : ℕ → Observation :=
  let o' := processVisit charge_group not_charged endCharge tsl v (m v.obs_id)
  fun id => if id = v.obs_id then o' else m id

/-- The accounting of one `GroupVisits` (collector.py lines 635-731): the
charging flags are computed once (lines 637-654) and the visit loop folds
`accountStep` over the visits in order. -/
def accountGroupVisit (tsl : ℚ) (bound : Option ℤ) (obsMap : ℕ → Observation)
    (gv : GroupVisits) : ℕ → Observation :=
  gv.visits.foldl
    (accountStep (chargeGroupFlag bound gv) (notChargedFlag bound gv)
      (endTimeslotCharge bound gv) tsl) obsMap

/-! ## Decidability of result comparison and concrete inputs -/

deriving instance DecidableEq for Except

/-- Whether an embedded call failed with a `ValueError`. -/
def isValueError : Except PyErr Unit → Bool
  | .error (.valueError _) => true
  | _ => false

/-- The program and partner charge of every atom of the second observation
agrees entrywise with the first observation. -/
def chargePreserved (o o' : Observation) : Prop :=
  ∀ i : ℕ, (o'.sequence[i]?).map Atom.program_used = (o.sequence[i]?).map Atom.program_used
    ∧ (o'.sequence[i]?).map Atom.partner_used = (o.sequence[i]?).map Atom.partner_used

/-- Failing timing window for claim C6: a declared window with repeat
count 0 (the lucupy value for a non-repeating window). -/
def twExC6 : TimingWindow := ⟨7, 2, 0, some 24⟩

/-- Sample visits for the claim C4 timeline: `vC4b` (slots 2-3 of the
plan generated at slot 0) overlaps `vC4c` (slots 2-3 of the re-plan
generated at slot 2). -/
def vC4a : Visit := ⟨1, 0, 2, 0, 0, 0⟩

/-- Second visit of the evening plan in the claim C4 timeline. -/
def vC4b : Visit := ⟨2, 2, 2, 0, 0, 0⟩

/-- The visit of the slot-2 re-plan in the claim C4 timeline. -/
def vC4c : Visit := ⟨3, 2, 2, 0, 0, 0⟩

/-- The visit of the slot-4 re-plan in the claim C4 timeline. -/
def vC4d : Visit := ⟨4, 4, 2, 0, 0, 0⟩

/-- The plan generated at the evening-twilight event (slot 0). -/
def planC4a : Plan := ⟨0, 10, 1, .GN, 0, [vC4a, vC4b]⟩

/-- The plan generated at the slot-2 event. -/
def planC4b : Plan := ⟨2, 10, 1, .GN, 0, [vC4c]⟩

/-- The plan generated at the slot-4 event. -/
def planC4c : Plan := ⟨4, 10, 1, .GN, 0, [vC4d]⟩

/-- A timeline with three plan-carrying entries at slots 0, 2 and 4. -/
def entriesExC4 : List TimelineEntry :=
  [⟨0, 0, some planC4a⟩, ⟨2, 1, some planC4b⟩, ⟨4, 2, some planC4c⟩]

/-- The claim C4 nightly timeline. -/
def tlExC4 : NightlyTimeline := ⟨[(0, [(.GN, entriesExC4)])]⟩

/-- Sample atom for claim C7: used times, observed flag and QA state set. -/
def atomExC7 : Atom := ⟨2, 2, 0, 1, 1, 0, true, .pass⟩

/-- Sample observation for claim C7 with status OBSERVED. -/
def obsExC7 : Observation := ⟨[atomExC7], .observed, 0, .science⟩

/-- Timeline for the claim C9 witness: night 0 at site GN with a single
entry carrying no generated plan. -/
def tlExC9 : NightlyTimeline := ⟨[(0, [(Site.GN, [⟨0, 0, none⟩])])]⟩

/-- Visit for the claim C10 witness. -/
def vExC10 : Visit := ⟨9, 0, 3, 0, 0, 0⟩

/-- Plan for the claim C10 witness. -/
def planExC10 : Plan := ⟨0, 10, 1, .GN, 0, [vExC10]⟩

/-- Timeline for the claim C10 witness. -/
def tlExC10 : NightlyTimeline := ⟨[(0, [(Site.GN, [⟨0, 0, some planExC10⟩])])]⟩

/-- First atom for the claim C5 witness (1 hour of program time). -/
def atomExC5a : Atom := ⟨1, 1, 0, 0, 0, 0, false, .stateNone⟩

/-- Second atom for the claim C5 witness (1 hour of partner time). -/
def atomExC5b : Atom := ⟨1, 0, 1, 0, 0, 0, false, .stateNone⟩

/-- Observation for the claim C5 witness: two atoms, no acquisition
overhead. -/
def obsExC5 : Observation := ⟨[atomExC5a, atomExC5b], .ready, 0, .science⟩

/-- Observation store for the claim C5 witness. -/
def mapExC5 : ℕ → Observation := fun _ => obsExC5

/-- Visit for the claim C5 witness: slots 0-1, atoms 0-1 of observation
7. -/
def vExC5 : Visit := ⟨7, 0, 2, 0, 1, 0⟩

/-- Scheduling-group visits for the claim C5 witness. -/
def gvExC5 : GroupVisits := ⟨⟨true⟩, [vExC5]⟩

/-- Plain-group visits for the claim C5 witness. -/
def gvExC5p : GroupVisits := ⟨⟨false⟩, [vExC5]⟩

/-! ## Helper lemmas -/

/-- Bands 4 and 3 are distinct, in rewrite form. -/
theorem band4_ne_band3 : (Band.band4 = Band.band3) = False := by
  simp only [eq_iff_iff, iff_false]
  exact fun h => Band.noConfusion h

/-- Every visit accumulated by the `get_final_plan` loop has nonzero
`time_slots`: the loop only ever appends visits that pass the
`if v.time_slots` filter. -/
theorem finalPlanStep_foldl_ne_zero :
    ∀ (l : List TimelineEntry) (st : ℕ × List Visit),
      (∀ v ∈ st.2, v.time_slots ≠ 0) →
      ∀ v ∈ (l.foldl finalPlanStep st).2, v.time_slots ≠ 0 := by
  intro l
  induction l with
  | nil => intro st h v hv; exact h v hv
  | cons e rest ih =>
    intro st h v hv
    refine ih (finalPlanStep st e) ?_ v hv
    intro w hw
    simp only [finalPlanStep, List.mem_append] at hw
    rcases hw with hw | hw
    · exact h w hw
    · have := List.mem_filter.1 hw
      simpa using this.2

/-- Reflexivity of `chargePreserved`. -/
theorem chargePreserved_refl (o : Observation) : chargePreserved o o :=
  fun _ => ⟨rfl, rfl⟩

/-- Transitivity of `chargePreserved`. -/
theorem chargePreserved_trans {a b c : Observation}
    (h1 : chargePreserved a b) (h2 : chargePreserved b c) : chargePreserved a c :=
  fun i => ⟨(h2 i).1.trans (h1 i).1, (h2 i).2.trans (h1 i).2⟩

/-- Indexing through `updateIdx`. -/
theorem updateIdx_getElem (f : ℕ → Atom → Atom) :
    ∀ (k : ℕ) (l : List Atom) (i : ℕ), (updateIdx f k l)[i]? = (l[i]?).map (f (k + i)) := by
  intro k l
  induction l generalizing k with
  | nil => intro i; simp [updateIdx]
  | cons a as ih =>
    intro i
    cases i with
    | zero => simp [updateIdx]
    | succ j =>
      have harith : k + 1 + j = k + (j + 1) := by omega
      simp [updateIdx, ih (k + 1) j, harith]

/-- When the group is not charged, the per-atom update never touches
`program_used` or `partner_used`. -/
theorem atomUpdate_uncharged_fields (nc : Bool) (endCharge : ℤ) (tsl : ℚ)
    (v : Visit) (o : Observation) (i : ℕ) (a : Atom) :
    (atomUpdate false nc endCharge tsl v o i a).program_used = a.program_used
    ∧ (atomUpdate false nc endCharge tsl v o i a).partner_used = a.partner_used := by
  unfold atomUpdate
  split_ifs <;> simp_all

/-- When the group is not charged, processing a visit preserves the
program and partner charges of every atom. -/
theorem processVisit_uncharged_preserved (nc : Bool) (endCharge : ℤ) (tsl : ℚ)
    (v : Visit) (o : Observation) :
    chargePreserved o (processVisit false nc endCharge tsl v o) := by
  intro i
  unfold processVisit
  simp only [Bool.false_eq_true, false_and, if_false]
  have hseq : (if nc = true then { o with status := ObservationStatus.ongoing } else o).sequence
      = o.sequence := by split <;> rfl
  rw [hseq, updateIdx_getElem]
  cases h : o.sequence[i]? with
  | none => simp
  | some a =>
    simp only [Option.map_some, Option.map_some', Nat.zero_add]
    split
    · exact ⟨congrArg some (atomUpdate_uncharged_fields nc endCharge tsl v o i a).1,
        congrArg some (atomUpdate_uncharged_fields nc endCharge tsl v o i a).2⟩
    · exact ⟨rfl, rfl⟩

/-- When the group is not charged, one step of the accounting fold
preserves the program and partner charges in the store. -/
theorem accountStep_uncharged_preserved (nc : Bool) (endCharge : ℤ) (tsl : ℚ)
    (m : ℕ → Observation) (v : Visit) (id : ℕ) :
    chargePreserved (m id) (accountStep false nc endCharge tsl m v id) := by
  unfold accountStep
  by_cases h : id = v.obs_id
  · subst h
    simp only [if_pos rfl]
    exact processVisit_uncharged_preserved nc endCharge tsl v (m v.obs_id)
  · simp only [if_neg h]
    exact chargePreserved_refl (m id)

/-- When the group is not charged, the whole accounting fold preserves the
program and partner charges in the store. -/
theorem accountFold_uncharged_preserved (nc : Bool) (endCharge : ℤ) (tsl : ℚ) :
    ∀ (vs : List Visit) (m base : ℕ → Observation),
      (∀ id, chargePreserved (base id) (m id)) →
      ∀ id, chargePreserved (base id) ((vs.foldl (accountStep false nc endCharge tsl) m) id) := by
  intro vs
  induction vs with
  | nil => intro m base h id; exact h id
  | cons v rest ih =>
    intro m base h id
    simp only [List.foldl_cons]
    refine ih _ base (fun id' => ?_) id
    exact chargePreserved_trans (h id') (accountStep_uncharged_preserved nc endCharge tsl m v id')

/-! ## Claim theorems -/

/-- C1: the claim states that `Ranker._metric_slope` returns, on the
linear segment, `m2·c + b2` with `b2` chosen so that the parabolic and
linear pieces meet at `xb`.  In the code `b2` is always `0`, because the
branch conditions compare the Python builtin `pow` with 1 and 2: at
completion `0.9` for a band-4 program with the default parameters the code
returns metric `0`, while the claimed continuous formula gives `1/10`, so
the claim fails on the code (the code contradicts its own comment that
`b2` makes the pieces continuous). -/
theorem metric_slope_b2_zero_eval :
    metricSlope {} defaultBandParams [9/10] [Band.band4] [4/5] false = Except.ok ([0], [0])
    ∧ metricSlopeClaim {} defaultBandParams [9/10] [Band.band4] [4/5] false
      = Except.ok ([1/10], [0])
    ∧ Except.ok (([0], [0]) : List ℚ × List ℚ)
      ≠ (Except.ok (([1/10], [0]) : List ℚ × List ℚ) : Except PyErr _) := by
  refine ⟨?_, ?_, ?_⟩
  · norm_num [metricSlope, metricSlopeEntry, defaultBandParams, List.range_succ,
      List.mapM, List.mapM.loop, bind, Except.bind, pure, Except.pure, band4_ne_band3]
  · norm_num [metricSlopeClaim, metricSlopeClaimEntry, defaultBandParams, List.range_succ,
      List.mapM, List.mapM.loop, bind, Except.bind, pure, Except.pure, band4_ne_band3]
  · intro h
    have h2 := congrArg (fun x => match x with | Except.ok (m, _) => m.headD 0 | _ => 0) h
    norm_num at h2

/-- C2: the claim states that `Ranker.score_and_group` with the default
combiner returns, per slot, 0 if some child is 0 and the maximum
otherwise.  On an AND group of two observations scored over one night with
three time slots, the code instead raises a `ValueError`: the stacked
array is initialised with width 2 (the number of observations) while the
appended rows have length 3 (the number of slots), so the claim fails on
the code. -/
theorem score_and_group_shape_error_eval :
    scoreAndGroup [[[1, 2, 3]], [[4, 5, 6]]] [0] =
      Except.error (.valueError ("all the input array dimensions except for the concatenation axis must match exactly")) := by
  rfl

/-- C3: the claim states the invariant
`rem_visibility_time[n] = visibility_time[n] + rem_visibility_time[n+1]`.
With a consistent Redis cache holding night 1 (`visibility_time = 5`,
`rem_visibility_time = 5`, exactly what a fresh computation would store)
and night 0 computed fresh with `visibility_time = 2`, the code stores
`rem_visibility_time[0] = 2` because the reverse accumulator is not
advanced on cache hits, while the claim requires `2 + 5 = 7`; the claim
fails on the code. -/
theorem rem_visibility_cache_skip_eval :
    (calculateTargetInfoVis 2 cacheExC3 visExC3).lookup 0 = some ⟨2, 2⟩
    ∧ (calculateTargetInfoVis 2 cacheExC3 visExC3).lookup 1 = some ⟨5, 5⟩
    ∧ (TIvis.mk 2 2).rem_visibility_time ≠
        (TIvis.mk 2 2).visibility_time + (TIvis.mk 5 5).rem_visibility_time := by
  refine ⟨?_, ?_, ?_⟩
  · norm_num [calculateTargetInfoVis, calcVisLoop, cacheExC3, visExC3, List.range_succ,
      List.lookup]
    rfl
  · norm_num [calculateTargetInfoVis, calcVisLoop, cacheExC3, visExC3, List.range_succ,
      List.lookup]
  · norm_num

/-- C4: the claim states that each plan-carrying entry contributes the
slice up to the timeslot of the next-later plan-carrying entry.  On a
timeline with plan-carrying entries at slots 0, 2 and 4 the code slices
every non-latest entry at the running maximum of the later entry slots
(which is the latest slot, 4), so the slot-0 plan wrongly retains its
visit in slots 2-3 and the final plan contains two overlapping visits,
while the claimed assembly keeps only one; the claim fails on the code
(and the produced plan violates the documented non-overlap invariant). -/
theorem get_final_plan_latest_slot_slice_eval :
    finalPlanVisits tlExC4 0 .GN = .ok (some [vC4a, vC4b, vC4c, vC4d])
    ∧ claimFinalAssembly entriesExC4 = [vC4a, vC4c, vC4d]
    ∧ ([vC4a, vC4b, vC4c, vC4d] : List Visit) ≠ [vC4a, vC4c, vC4d] := by
  refine ⟨?_, ?_, ?_⟩ <;> decide

/-- C5: in `Collector.time_accounting`, a scheduling `GroupVisits` is
charged exactly when the bound is absent or strictly later than its end
time slot, a plain one exactly when the bound is absent or strictly later
than its start time slot, and when the bound falls inside a scheduling
group range the affected atoms are routed to `not_charged` while
`program_used` and `partner_used` stay untouched. -/
theorem time_accounting_charge_and_routing (tsl : ℚ) (bound : Option ℤ)
    (obsMap : ℕ → Observation) (gv : GroupVisits) :
    (gv.group.is_scheduling_group = true →
      (chargeGroupFlag bound gv = true ↔
        bound = none ∨ ∃ b, bound = some b ∧ gv.endTimeSlot < b))
    ∧ (gv.group.is_scheduling_group = false →
      (chargeGroupFlag bound gv = true ↔
        bound = none ∨ ∃ b, bound = some b ∧ (gv.startTimeSlot : ℤ) < b))
    ∧ (∀ b : ℤ, bound = some b → gv.group.is_scheduling_group = true →
        (gv.startTimeSlot : ℤ) ≤ b → b ≤ gv.endTimeSlot →
        (∀ id, chargePreserved (obsMap id) (accountGroupVisit tsl bound obsMap gv id))
        ∧ (∀ (v : Visit) (o : Observation) (i : ℕ) (a : Atom),
            v.atom_start_idx ≤ i → i ≤ v.atom_end_idx →
            slotAtomEnd tsl v o i < b → o.sequence[i]? = some a →
            (processVisit (chargeGroupFlag bound gv) (notChargedFlag bound gv)
                (endTimeslotCharge bound gv) tsl v o).sequence[i]? =
              some { a with not_charged :=
                a.not_charged + ((b - slotAtomStart tsl v o i + 1 : ℤ) : ℚ) * tsl })) := by
  refine ⟨?_, ?_, ?_⟩
  · intro hsched
    cases bound with
    | none => simp [chargeGroupFlag]
    | some b => simp [chargeGroupFlag, hsched]
  · intro hsched
    cases bound with
    | none => simp [chargeGroupFlag]
    | some b => simp [chargeGroupFlag, hsched]
  · intro b hb hsched hle1 hle2
    subst hb
    have hcg : chargeGroupFlag (some b) gv = false := by
      simp [chargeGroupFlag, hsched, not_lt.2 hle2]
    have hnc : notChargedFlag (some b) gv = true := by
      simp [notChargedFlag, hsched, endTimeslotCharge, hle1, hle2]
    have hec : endTimeslotCharge (some b) gv = b := rfl
    constructor
    · intro id
      have h0 : ∀ id', chargePreserved (obsMap id') (obsMap id') :=
        fun id' => chargePreserved_refl _
      have := accountFold_uncharged_preserved (notChargedFlag (some b) gv)
        (endTimeslotCharge (some b) gv) tsl gv.visits obsMap obsMap h0 id
      simpa [accountGroupVisit, hcg] using this
    · intro v o i a h1 h2 h3 h4
      rw [hcg, hnc, hec]
      unfold processVisit
      simp only [Bool.false_eq_true, false_and, if_false, if_true, eq_self_iff_true]
      rw [updateIdx_getElem, h4]
      simp only [Option.map_some, Option.map_some', Nat.zero_add, Option.some.injEq]
      rw [if_pos (And.intro h1 h2)]
      unfold atomUpdate
      rw [if_pos h3, if_neg (by simp), if_pos rfl]

/-- C5 witness: the charge conditions and the not-charged routing of
`time_accounting` evaluated on a concrete two-atom scheduling group with
bound 1 (inside its slot range 0-1), a scheduling group with bound 9 and a
plain group with bound 5. -/
theorem time_accounting_charge_and_routing_witness :
    chargeGroupFlag (some 9) gvExC5 = true
    ∧ chargeGroupFlag (some 5) gvExC5p = true
    ∧ ((accountGroupVisit 1 (some 1) mapExC5 gvExC5 7).sequence[0]?).map Atom.program_used
        = ((mapExC5 7).sequence[0]?).map Atom.program_used
    ∧ (processVisit (chargeGroupFlag (some 1) gvExC5) (notChargedFlag (some 1) gvExC5)
        (endTimeslotCharge (some 1) gvExC5) 1 vExC5 obsExC5).sequence[0]?
        = some { atomExC5a with not_charged :=
            atomExC5a.not_charged + ((1 - slotAtomStart 1 vExC5 obsExC5 0 + 1 : ℤ) : ℚ) * 1 } := by
  have hend : gvExC5.endTimeSlot = 1 := by
    norm_num [GroupVisits.endTimeSlot, gvExC5, vExC5]
  have hstart : gvExC5.startTimeSlot = 0 := by
    norm_num [GroupVisits.startTimeSlot, gvExC5, vExC5]
  have hse : slotAtomEnd 1 vExC5 obsExC5 0 < 1 := by
    norm_num [slotAtomEnd, slotLengthVisit, nSlotsAcq, time2slots, cumulativeExecTimes,
      cumSum, obsExC5, vExC5, atomExC5a, atomExC5b]
  refine ⟨?_, ?_, ?_, ?_⟩
  · exact ((time_accounting_charge_and_routing 1 (some 9) mapExC5 gvExC5).1 rfl).mpr
      (Or.inr ⟨9, rfl, by rw [hend]; norm_num⟩)
  · exact ((time_accounting_charge_and_routing 1 (some 5) mapExC5 gvExC5p).2.1 rfl).mpr
      (Or.inr ⟨5, rfl, by norm_num [GroupVisits.startTimeSlot, gvExC5p, vExC5]⟩)
  · exact (((time_accounting_charge_and_routing 1 (some 1) mapExC5 gvExC5).2.2 1 rfl rfl
      (by norm_num [hstart]) (by norm_num [hend])).1 7 0).1
  · exact ((time_accounting_charge_and_routing 1 (some 1) mapExC5 gvExC5).2.2 1 rfl rfl
      (by norm_num [hstart]) (by norm_num [hend])).2 vExC5 obsExC5 0 atomExC5a
      (Nat.le_refl 0) (by norm_num [vExC5]) hse rfl

/-- C6 counterexample: the claim states that a declared timing window with
repeat count `r` expands into exactly `r` copies; for a window with
repeat 0 the code produces one copy (`max(1, repeat)` on collector.py
line 259) where the claim as stated produces none, so the claim fails on
the code at this input. -/
theorem timing_windows_repeat_zero_cex :
    processTimingWindows 0 100 (some [twExC6]) = [(7, 9)]
    ∧ claimTimingWindows 0 100 (some [twExC6]) = []
    ∧ ([((7 : ℚ), (9 : ℚ))] : List (ℚ × ℚ)) ≠ [] := by
  refine ⟨?_, by rfl, by simp⟩
  norm_num [processTimingWindows, expandTimingWindow, twExC6, List.range_succ]

/-- C6 amended: `Collector._process_timing_windows` yields one window
spanning the program when no windows are declared, and otherwise expands
each declared window into `max 1 r` copies, the i-th copy starting at
`start + i·period` and lasting the window duration. -/
theorem timing_windows_amended_expansion (progStart progEnd : ℚ)
    (tws : Option (List TimingWindow)) :
    processTimingWindows progStart progEnd tws = amendedTimingWindows progStart progEnd tws := by
  have key : ∀ (l : List TimingWindow) (acc : List (ℚ × ℚ)),
      l.foldl (fun windows tw => windows ++ expandTimingWindow tw) acc
        = acc ++ l.flatMap expandTimingWindow := by
    intro l
    induction l with
    | nil => intro acc; simp
    | cons x xs ih => intro acc; simp [ih, List.flatMap_cons]
  cases tws with
  | none => rfl
  | some l =>
    cases l with
    | nil => rfl
    | cons tw rest =>
      simp only [processTimingWindows, amendedTimingWindows, List.isEmpty_cons]
      rw [key]
      rfl

/-- C7: the Validation-mode observation reset is idempotent; after one
application every atom has zero `program_used` and `partner_used`, a false
`observed` flag and QA state NONE, and every observation whose status was
ONGOING or OBSERVED has status READY. -/
theorem validation_reset_idempotent (obs : List Observation) :
    clearObservationInfo (clearObservationInfo obs) = clearObservationInfo obs
    ∧ (∀ o ∈ clearObservationInfo obs, ∀ a ∈ o.sequence,
        a.program_used = 0 ∧ a.partner_used = 0 ∧ a.observed = false ∧ a.qa_state = .stateNone)
    ∧ (∀ o ∈ obs, (o.status = .ongoing ∨ o.status = .observed) →
        (clearObservation o).status = .ready) := by
  have hca : clearAtom ∘ clearAtom = clearAtom := funext fun a => rfl
  have hco : ∀ o, clearObservation (clearObservation o) = clearObservation o := by
    intro o
    cases o with
    | mk seq st acq cls =>
      simp only [clearObservation, List.map_map, hca]
      cases st <;> simp [obsStatusesToReady]
  refine ⟨?_, ?_, ?_⟩
  · simp only [clearObservationInfo, List.map_map]
    exact List.map_congr_left fun o _ => hco o
  · intro o ho a ha
    rcases List.mem_map.1 ho with ⟨o0, _, rfl⟩
    have ha' : a ∈ o0.sequence.map clearAtom := by
      simpa [clearObservation] using ha
    rcases List.mem_map.1 ha' with ⟨a0, _, rfl⟩
    exact ⟨rfl, rfl, rfl, rfl⟩
  · intro o ho h
    rcases h with h | h <;> simp [clearObservation, h, obsStatusesToReady]

/-- C7 witness: the reset applied to a singleton collection holding an
OBSERVED observation with a charged, passed atom. -/
theorem validation_reset_idempotent_witness :
    clearObservationInfo (clearObservationInfo [obsExC7]) = clearObservationInfo [obsExC7]
    ∧ (clearAtom atomExC7).program_used = 0
    ∧ (clearObservation obsExC7).status = .ready := by
  refine ⟨(validation_reset_idempotent [obsExC7]).1, ?_,
    (validation_reset_idempotent [obsExC7]).2.2 obsExC7 (by simp) (Or.inr rfl)⟩
  exact ((validation_reset_idempotent [obsExC7]).2.1 (clearObservation obsExC7)
    (by simp [clearObservationInfo]) (clearAtom atomExC7)
    (by simp [clearObservation, obsExC7])).1

/-- C8: the Collector construction-time validation fails with a
`ValueError` whenever the start visibility time is not scalar, the end
visibility time is not scalar, or the start is later than the end, and
passes for every pair of scalar times with start at most end. -/
theorem collector_time_validation (s e : TimeValue) :
    ((npIsScalar s = false ∨ npIsScalar e = false ∨ timeScalarValue e < timeScalarValue s) →
      isValueError (collectorCheckTimes s e) = true)
    ∧ (∀ qs qe, s = .scalar qs → e = .scalar qe → qs ≤ qe →
      collectorCheckTimes s e = .ok ()) := by
  constructor
  · intro h
    by_cases h1 : npIsScalar s = false
    · simp [collectorCheckTimes, h1, isValueError]
    · by_cases h2 : npIsScalar e = false
      · simp [collectorCheckTimes, h1, h2, isValueError]
      · have h3 : timeScalarValue e < timeScalarValue s := by tauto
        simp [collectorCheckTimes, h1, h2, h3, isValueError]
  · intro qs qe hs he hle
    subst hs he
    simp [collectorCheckTimes, npIsScalar, timeScalarValue, not_lt.2 hle]
    rfl

/-- C8 witness: a non-scalar start time is rejected and the scalar pair
(1, 2) is accepted. -/
theorem collector_time_validation_witness :
    isValueError (collectorCheckTimes (.array []) (.scalar 0)) = true
    ∧ collectorCheckTimes (.scalar 1) (.scalar 2) = .ok () :=
  ⟨(collector_time_validation (.array []) (.scalar 0)).1 (Or.inl rfl),
   (collector_time_validation (.scalar 1) (.scalar 2)).2 1 2 rfl rfl (by norm_num)⟩

/-- C9: `NightlyTimeline.get_final_plan` raises a `RuntimeError` when the
night index is absent or the site is absent for that night, returns `None`
when entries exist but none carries a generated plan, and leaves the
timeline unchanged in all three cases. -/
theorem get_final_plan_error_cases (tl : NightlyTimeline) (n : ℕ) (s : Site) :
    (tl.timeline.lookup n = none →
      getFinalPlanFull tl n s =
        (.error (.runtimeError ("Cannot get final plan: night_idx for site not in timeline.")), tl))
    ∧ (∀ bySite, tl.timeline.lookup n = some bySite → bySite.lookup s = none →
      getFinalPlanFull tl n s =
        (.error (.runtimeError ("Cannot get final plan: site not in timeline.")), tl))
    ∧ (∀ bySite entries, tl.timeline.lookup n = some bySite → bySite.lookup s = some entries →
      (∀ e ∈ entries, e.plan_generated = none) →
      getFinalPlanFull tl n s = (.ok none, tl)) := by
  refine ⟨?_, ?_, ?_⟩
  · intro h
    simp [getFinalPlanFull, h]
  · intro bySite h1 h2
    simp [getFinalPlanFull, h1, h2]
  · intro bySite entries h1 h2 hall
    have hfil : entries.reverse.filter (fun e => e.plan_generated.isSome) = [] := by
      rw [List.filter_eq_nil_iff]
      intro e he
      simp [hall e (List.mem_reverse.1 he)]
    simp [getFinalPlanFull, h1, h2, hfil]

/-- C9 witness: the three cases evaluated on a timeline holding night 0 at
site GN with one plan-less entry. -/
theorem get_final_plan_error_cases_witness :
    getFinalPlanFull tlExC9 1 .GN =
      (.error (.runtimeError ("Cannot get final plan: night_idx for site not in timeline.")), tlExC9)
    ∧ getFinalPlanFull tlExC9 0 .GS =
      (.error (.runtimeError ("Cannot get final plan: site not in timeline.")), tlExC9)
    ∧ getFinalPlanFull tlExC9 0 .GN = (.ok none, tlExC9) :=
  ⟨(get_final_plan_error_cases tlExC9 1 .GN).1 rfl,
   (get_final_plan_error_cases tlExC9 0 .GS).2.1 _ rfl rfl,
   (get_final_plan_error_cases tlExC9 0 .GN).2.2 _ [⟨0, 0, none⟩] rfl rfl
     (by intro e he; simp at he; subst he; rfl)⟩

/-- C10: every visit of a plan returned by
`NightlyTimeline.get_final_plan` has strictly positive `time_slots`; a
visit truncated to zero length at a later event timeslot is dropped. -/
theorem final_plan_visits_positive (tl : NightlyTimeline) (n : ℕ) (s : Site) (p : Plan)
    (h : getFinalPlan tl n s = .ok (some p)) : ∀ v ∈ p.visits, 0 < v.time_slots := by
  unfold getFinalPlan getFinalPlanFull at h
  split at h
  · simp at h
  · split at h
    · simp at h
    · split at h
      · simp at h
      · rename_i entries e0 rest heq
        simp only [Except.ok.injEq, Option.some.injEq] at h
        subst h
        intro v hv
        simp only [List.mem_reverse] at hv
        have := finalPlanStep_foldl_ne_zero (e0 :: rest) (0, [])
          (by intro w hw; simp at hw) v hv
        exact Nat.pos_of_ne_zero this

/-- C10 witness: the final plan of a one-entry timeline, whose single
visit has three time slots. -/
theorem final_plan_visits_positive_witness :
    getFinalPlan tlExC10 0 .GN = .ok (some planExC10) ∧ 0 < vExC10.time_slots :=
  ⟨by decide, final_plan_visits_positive tlExC10 0 .GN planExC10 (by decide) vExC10 (by decide)⟩
